import Mathlib

/-!
Verification of the SciFig adaptive statistical decision engine.

The definitions below are a shallow embedding of the Python sources:
  - src/backend/app/services/statistical_engine.py
    (DataProfiler, AssumptionChecker, StatisticalBrain, EngineOrchestrator)
  - src/backend/publication_viz_engine.py
    (event coding normalizer and survival data validation)
  - src/backend/scifig_api_server.py (the sibling recommender
    recommend_statistical_test)

Python scalars are modelled by the PyVal type, Python floats by rationals,
exceptions by Except values, and the external scipy routines (shapiro,
levene) and the statistical workflows by explicit function parameters.
-/

set_option maxHeartbeats 1000000

deriving instance DecidableEq for Except

namespace SciFig

/-- A Python scalar value as it appears in a tabular cell: a number
(ints and floats are both modelled as rationals), a boolean, a string, or a
missing value (None / NaN). -/
inductive PyVal where
  | vNum (q : ℚ)
  | vBool (b : Bool)
  | vStr (s : String)
  | vNone
deriving DecidableEq

/-- Python equality (==) between scalars: numbers and booleans compare by
numeric value (True == 1, False == 0), strings by content; NaN/None is equal
to nothing, not even itself. -/
def pyEq : PyVal → PyVal → Bool
  | PyVal.vNum a, PyVal.vNum b => a == b
  | PyVal.vNum a, PyVal.vBool b => a == (if b then (1 : ℚ) else 0)
  | PyVal.vBool a, PyVal.vNum b => (if a then (1 : ℚ) else 0) == b
  | PyVal.vBool a, PyVal.vBool b => a == b
  | PyVal.vStr a, PyVal.vStr b => a == b
  | _, _ => false

/-- Python str() of a scalar.  Integral numbers render as their integer
string; booleans as True/False.  (Non-integral rationals use the Lean
rational printer; no branch of the normalizer distinguishes such strings,
since the fixed vocabularies contain only words and the digits 0 and 1.) -/
def pyStrRepr : PyVal → String
  | PyVal.vNum q => if q.den = 1 then toString q.num else toString q
  | PyVal.vBool b => if b then "True" else "False"
  | PyVal.vStr s => s
  | PyVal.vNone => "nan"

/-- Whitespace recognized by str.strip(). -/
def isWsp (c : Char) : Bool := c == ' ' || c == '\t' || c == '\n' || c == '\r'

/-- Strip leading and trailing whitespace from a character list. -/
def trimWs (cs : List Char) : List Char :=
  ((cs.dropWhile isWsp).reverse.dropWhile isWsp).reverse

/-- str(v).lower().strip() as used by the event normalizer. -/
def strKey (v : PyVal) : String :=
  String.mk (trimWs ((pyStrRepr v).data.map Char.toLower))

/-- Deduplication keeping the first occurrence, with respect to an
equality test, carrying the values kept so far: the model of building a
set / pandas unique() from a list (the tests used are symmetric and
transitive on the values they are applied to). -/
def dedupByAux (eq : α → α → Bool) (seen : List α) : List α → List α
  | [] => []
  | x :: xs =>
    if seen.any (fun y => eq x y) then dedupByAux eq seen xs
    else x :: dedupByAux eq (x :: seen) xs

/-- Deduplication keeping the first occurrence. -/
def dedupBy (eq : α → α → Bool) (l : List α) : List α := dedupByAux eq [] l

/-- Keep the non-missing values of a column (pandas dropna). -/
def cleanCol (col : List PyVal) : List PyVal :=
  col.filter (fun v => !(v == PyVal.vNone))

/-! ## StatisticalBrain (statistical_engine.py lines 185-266) -/

/-- The TestType enum of statistical_engine.py. -/
inductive TestType where
  | t_test
  | paired_t_test
  | welch_t_test
  | one_way_anova
  | chi_square
  | fisher_exact
  | mann_whitney
  | wilcoxon
  | kruskal_wallis
  | correlation
  | linear_regression
  | kaplan_meier
deriving DecidableEq

/-- One entry of the recommendations list built by recommend_test. -/
structure Candidate where
  test : TestType
  confidence : ℚ
  reason : String
deriving DecidableEq

/-- The dictionary returned by StatisticalBrain.recommend_test. -/
structure RecommendResult where
  primary : TestType
  alternatives : List Candidate
  reasoning : String
deriving DecidableEq

/-- Insertion of a candidate into a list sorted by descending confidence
(model of the Python list.sort with reverse=True; all lists the recommender
builds have strictly descending confidences, so tie order never matters). -/
def insertConfDesc (c : Candidate) : List Candidate → List Candidate
  | [] => [c]
  | x :: xs => if x.confidence < c.confidence then c :: x :: xs else x :: insertConfDesc c xs

/-- Sort candidates by descending confidence. -/
def sortByConfidence (l : List Candidate) : List Candidate :=
  l.foldr insertConfDesc []

/-- The DataProfile dataclass of statistical_engine.py.  The Python field
named variables is rendered variables_list here because Lean reserves that
identifier. -/
structure DataProfile where
  sample_size : Nat
  outcome_variable : String
  outcome_type : String
  group_variable : Option String
  time_variable : Option String
  event_variable : Option String
  is_paired : Bool
  variables_list : List String
  n_groups : Option Nat
  group_labels : Option (List PyVal)
  group_sizes : Option (List (PyVal × Nat))
deriving DecidableEq

/-- The recommendations list built by StatisticalBrain.recommend_test
(lines 218-257): the rules branch only on outcome_type, n_groups and
sample_size; time_variable and event_variable are never consulted. -/
def buildRecommendations (profile : DataProfile) : List Candidate :=
  if profile.outcome_type == "continuous" then
    if profile.n_groups == some 2 then
      (if 30 ≤ profile.sample_size then
        [⟨TestType.t_test, mkRat 9 10, "Two groups, continuous outcome, adequate sample size"⟩]
      else []) ++
      [⟨TestType.mann_whitney, mkRat 8 10, "Non-parametric alternative for two groups"⟩]
    else
      match profile.n_groups with
      | some k =>
        if k ≠ 0 ∧ 2 < k then
          [⟨TestType.one_way_anova, mkRat 9 10, toString k ++ " groups, continuous outcome"⟩,
           ⟨TestType.kruskal_wallis, mkRat 8 10, "Non-parametric alternative for multiple groups"⟩]
        else []
      | none => []
  else if profile.outcome_type == "categorical" then
    match profile.n_groups with
    | some k =>
      if k ≠ 0 ∧ 2 ≤ k then
        [⟨TestType.chi_square, mkRat 9 10, "Categorical outcome with groups"⟩] ++
        (if k == 2 then
          [⟨TestType.fisher_exact, mkRat 8 10, "Exact test for 2x2 contingency table"⟩]
        else [])
      else []
    | none => []
  else []

/-- StatisticalBrain.recommend_test (lines 216-266): sort the rule output by
confidence and take the head as primary; with an empty rule output it falls
back to T_TEST with reasoning Default test. -/
def recommend_test (profile : DataProfile) : RecommendResult :=
  match sortByConfidence (buildRecommendations profile) with
  | [] => ⟨TestType.t_test, [], "Default test"⟩
  | r :: rest => ⟨r.test, rest.take 2, r.reason⟩

/-! ## DataProfiler (statistical_engine.py lines 116-183) -/

/-- The column names of a pandas DataFrame built from a list of row
dictionaries: the union of the row keys in order of first appearance. -/
def dfColumns (rows : List (List (String × PyVal))) : List String :=
  dedupBy (fun a b => a == b) (rows.foldl (fun acc r => acc ++ r.map Prod.fst) [])

/-- The values of one column, one per row; a row without the key yields a
missing value (NaN). -/
def colValues (rows : List (List (String × PyVal))) (c : String) : List PyVal :=
  rows.map (fun r => (List.lookup c r).getD PyVal.vNone)

/-- Whether a pandas series of these cells carries a numeric dtype: every
cell is a number or missing, or the column is pure booleans. -/
def seriesIsNumeric (col : List PyVal) : Bool :=
  col.all (fun v => match v with
    | PyVal.vNum _ => true
    | PyVal.vNone => true
    | _ => false) ||
  col.all (fun v => match v with
    | PyVal.vBool _ => true
    | _ => false)

/-- DataProfiler._determine_variable_type (lines 163-183): drop missing
values; an empty or non-numeric column is categorical; a numeric column with
fewer than 10 distinct values or a distinct ratio below 5 percent is
categorical, otherwise continuous. -/
def determine_variable_type (col : List PyVal) : String :=
  if (cleanCol col).length = 0 then "categorical"
  else if seriesIsNumeric col then
    if (dedupBy pyEq (cleanCol col)).length < 10 ∨
        mkRat ((dedupBy pyEq (cleanCol col)).length : Int) (cleanCol col).length <
          mkRat 5 100 then
      "categorical"
    else "continuous"
  else "categorical"

/-- Insertion into a list of (value, count) pairs sorted by descending
count: the model of the pandas value_counts ordering. -/
def insertCountDesc (c : PyVal × Nat) : List (PyVal × Nat) → List (PyVal × Nat)
  | [] => [c]
  | x :: xs => if x.2 < c.2 then c :: x :: xs else x :: insertCountDesc c xs

/-- df[group_var].value_counts().to_dict(): counts of each distinct
non-missing value, in descending count order. -/
def valueCounts (col : List PyVal) : List (PyVal × Nat) :=
  ((dedupBy pyEq (cleanCol col)).map
    (fun u => (u, (col.filter (fun v => pyEq v u)).length))).foldr insertCountDesc []

/-- DataProfiler.profile_data (lines 119-161).  Indexing the frame with a
missing outcome column raises a KeyError, modelled as an error value; a
group variable that is falsy or absent from the columns is silently skipped
(the group fields stay None), exactly as the guard on line 138 does. -/
def profile_data (rows : List (List (String × PyVal))) (outcome_var : String)
    (group_var : Option String) (time_var : Option String) (event_var : Option String) :
    Except String DataProfile :=
  if (dfColumns rows).contains outcome_var then
    match
      (match group_var with
       | some g => if !(g == "") && (dfColumns rows).contains g then some g else none
       | none => none) with
    | none =>
      Except.ok ⟨rows.length, outcome_var,
        determine_variable_type (colValues rows outcome_var),
        group_var, time_var, event_var, false, dfColumns rows, none, none, none⟩
    | some g =>
      Except.ok ⟨rows.length, outcome_var,
        determine_variable_type (colValues rows outcome_var),
        group_var, time_var, event_var,
        (if (dedupBy pyEq (cleanCol (colValues rows g))).length = 2 then
          match valueCounts (colValues rows g) with
          | a :: b :: _ => a.2 == b.2 && rows.length == a.2 * 2
          | _ => false
        else false),
        dfColumns rows,
        some (dedupBy pyEq (cleanCol (colValues rows g))).length,
        some (dedupBy pyEq (cleanCol (colValues rows g))),
        some (valueCounts (colValues rows g))⟩
  else Except.error ("KeyError: " ++ outcome_var)

/-! ## AssumptionChecker (statistical_engine.py lines 66-114)

The scipy routines stats.shapiro and stats.levene are external: they are
passed as function parameters returning either a (statistic, p_value) pair
or the message of the exception they raise. -/

/-- The AssumptionResult dataclass. -/
structure AssumptionResult where
  test : String
  passed : Bool
  p_value : Option ℚ
  statistic : Option ℚ
  reason : Option String
deriving DecidableEq

/-- AssumptionChecker.check_normality (lines 69-94): fewer than 3
observations fail immediately with no statistic; otherwise the shapiro
routine runs, a success sets passed to p_value > alpha, and a raised
exception is caught and reported as a failed result.  (The reason of the
success path abbreviates the Python 4-decimal float formatting.) -/
def check_normality (shapiro : List ℚ → Except String (ℚ × ℚ))
    (data : List ℚ) (alpha : ℚ) : AssumptionResult :=
  if data.length < 3 then
    ⟨"shapiro_wilk", false, none, none, some "Insufficient data for normality test"⟩
  else
    match shapiro data with
    | Except.ok (statistic, p_value) =>
      ⟨"shapiro_wilk", decide (alpha < p_value), some p_value, some statistic,
       some ("p=" ++ toString p_value ++ ", " ++
             (if alpha < p_value then "normal" else "non-normal"))⟩
    | Except.error e =>
      ⟨"shapiro_wilk", false, none, none, some ("Test failed: " ++ e)⟩

/-- AssumptionChecker.check_equal_variance (lines 96-114): the levene
routine runs on the two groups; a success sets passed to p_value > alpha,
and a raised exception is caught and reported as a failed result. -/
def check_equal_variance (levene : List ℚ → List ℚ → Except String (ℚ × ℚ))
    (group1 group2 : List ℚ) (alpha : ℚ) : AssumptionResult :=
  match levene group1 group2 with
  | Except.ok (statistic, p_value) =>
    ⟨"levene", decide (alpha < p_value), some p_value, some statistic,
     some ("p=" ++ toString p_value ++ ", " ++
           (if alpha < p_value then "equal" else "unequal") ++ " variances")⟩
  | Except.error e =>
    ⟨"levene", false, none, none, some ("Test failed: " ++ e)⟩

/-! ## EngineOrchestrator (statistical_engine.py lines 351-440) -/

/-- The final_result produced by a workflow, abstracted: the workflows
themselves call scipy and are passed as a function parameter. -/
structure ExecResult where
  test_name : String
  p_value : ℚ
deriving DecidableEq

/-- The dictionary returned by EngineOrchestrator.run_analysis.  The
executed_test field records which workflow the dispatch on lines 375-381
invoked (T_TEST for the t-test workflow, CHI_SQUARE for the chi-square
workflow). -/
structure AnalysisOutcome where
  data_profile : Option DataProfile
  recommendation : Option RecommendResult
  final_result : Option ExecResult
  executed_test : Option TestType
  status : String
  error : Option String
deriving DecidableEq

/-- The workflow dispatch of run_analysis lines 375-381: the t-test
workflow for a T_TEST primary, the chi-square workflow for a CHI_SQUARE
primary, and the t-test workflow as the default for every other primary
(the Python comment reads: Default to t-test for now). -/
def chooseWorkflow (primary : TestType) : TestType :=
  if primary == TestType.t_test then TestType.t_test
  else if primary == TestType.chi_square then TestType.chi_square
  else TestType.t_test

/-- The failure value built by the except-branch on lines 391-395. -/
def failedOutcome (msg : String) : AnalysisOutcome :=
  ⟨none, none, none, none, "failed", some msg⟩

/-- EngineOrchestrator.run_analysis (lines 359-395): profile, recommend,
dispatch and execute, all inside one try whose except-branch converts any
raised exception into a failed outcome value.  The workflow parameter
models the two _execute_*_workflow methods together with the scipy calls
they make; its error case models any exception they raise. -/
def run_analysis (workflow : TestType → Except String ExecResult)
    (data : List (List (String × PyVal))) (outcome_var : String)
    (group_var : Option String) (time_var : Option String) (event_var : Option String) :
    AnalysisOutcome :=
  match profile_data data outcome_var group_var time_var event_var with
  | Except.error e => failedOutcome e
  | Except.ok profile =>
    match workflow (chooseWorkflow (recommend_test profile).primary) with
    | Except.error e => failedOutcome e
    | Except.ok result =>
      ⟨some profile, some (recommend_test profile), some result,
       some (chooseWorkflow (recommend_test profile).primary), "completed", none⟩

/-! ## The sibling recommender of scifig_api_server.py (lines 359-381) -/

/-- The DataProfile dataclass of scifig_api_server.py. -/
structure ApiDataProfile where
  outcome_type : String
  n_groups : Nat
  sample_size : Nat
  time_variable : Option String
  event_variable : Option String
deriving DecidableEq

/-- Python truthiness of an optional string: None and the empty string are
falsy. -/
def pyTruthyOptStr : Option String → Bool
  | none => false
  | some s => !(s == "")

/-- recommend_statistical_test of scifig_api_server.py (lines 359-381): a
survival short-circuit whenever both the time and the event variable are
truthy, then the outcome-type rules, and a raised ValueError when no rule
matches. -/
def recommend_statistical_test (p : ApiDataProfile) : Except String (String × Option String) :=
  if pyTruthyOptStr p.time_variable && pyTruthyOptStr p.event_variable then
    Except.ok ("survival_analysis", none)
  else if p.outcome_type == "continuous" then
    if p.n_groups == 2 then Except.ok ("independent_ttest", some "mann_whitney_u")
    else if 2 < p.n_groups then Except.ok ("one_way_anova", some "kruskal_wallis")
    else Except.error "Continuous outcomes require at least 2 groups for comparison"
  else if p.outcome_type == "categorical" then
    if 2 ≤ p.n_groups then Except.ok ("chi_square", some "fisher_exact")
    else Except.error "Categorical outcomes require at least 2 groups for comparison"
  else Except.error "No suitable test found for this data profile"

/-! ## Event coding normalizer (publication_viz_engine.py lines 72-152)

The caller (create_kaplan_meier_plot, line 310) drops missing values before
invoking the normalizer, so the column it receives holds no NaN; pyToInt
maps the unreachable missing case to 0. -/

/-- int(v): truncation toward zero for numbers, 0/1 for booleans.  The cast
is only applied by branches whose guard restricts the values to 0 and 1. -/
def pyToInt : PyVal → Int
  | PyVal.vNum q => q.num.tdiv q.den
  | PyVal.vBool b => if b then 1 else 0
  | PyVal.vStr _ => 0
  | PyVal.vNone => 0

/-- Digits of a decimal string chunk as a natural number; none when the
chunk holds a non-digit. -/
def parseDigits (cs : List Char) : Option Nat :=
  cs.foldl (fun acc c =>
    acc.bind (fun n => if c.isDigit then some (n * 10 + (c.toNat - 48)) else none))
    (some 0)

/-- Model of float(s) as used by pd.to_numeric(errors=coerce) on strings:
optional surrounding whitespace and sign, digits with an optional decimal
point.  (Exponent notation is not modelled; no decision in the normalizer
depends on it.) -/
def parseNumQ (s : String) : Option ℚ :=
  let cs := trimWs s.data
  let signed : Int × List Char :=
    match cs with
    | '-' :: r => (-1, r)
    | '+' :: r => (1, r)
    | r => (1, r)
  match signed.2.splitOn '.' with
  | [ip] =>
    if ip.isEmpty then none
    else (parseDigits ip).map (fun n => mkRat (signed.1 * n) 1)
  | [ip, fp] =>
    if ip.isEmpty && fp.isEmpty then none
    else
      match parseDigits ip, parseDigits fp with
      | some i, some f =>
        some (mkRat (signed.1 * ((i * 10 ^ fp.length + f) : Nat)) (10 ^ fp.length))
      | _, _ => none
  | _ => none

/-- pd.to_numeric(v, errors=coerce) on one cell. -/
def pyToNumeric : PyVal → Option ℚ
  | PyVal.vNum q => some q
  | PyVal.vBool b => some (if b then 1 else 0)
  | PyVal.vStr s => parseNumQ s
  | PyVal.vNone => none

/-- Whether a character occurs in a string. -/
def strHasChar (c : Char) (s : String) : Bool := s.data.contains c

/-- Whether needle occurs as a substring of hay (the Python in operator on
strings). -/
def strSub (needle hay : String) : Bool :=
  hay.data.tails.any (fun t => needle.data.isPrefixOf t)

/-- Whether needle is a prefix of hay (str.startswith). -/
def strStarts (needle hay : String) : Bool :=
  needle.data.isPrefixOf hay.data

/-- The event-occurred vocabulary of lines 96. -/
def event_terms : List String :=
  ["yes", "true", "dead", "death", "deceased", "event", "occurred", "positive", "1"]

/-- The censored vocabulary of line 98. -/
def censored_terms : List String :=
  ["no", "false", "alive", "living", "censored", "no event", "negative", "0"]

/-- The per-value mapping of the colon-separated branch (lines 103-113):
a leading 1: or a death keyword maps to 1, a leading 0: or an alive keyword
maps to 0, anything else is treated as censored. -/
def colonRule (v : PyVal) : Int :=
  if strStarts "1:" (strKey v) || strSub "deceased" (strKey v) ||
      strSub "dead" (strKey v) then 1
  else if strStarts "0:" (strKey v) || strSub "living" (strKey v) ||
      strSub "alive" (strKey v) then 0
  else 0

/-- The per-value mapping of the text-vocabulary branch (lines 119-130). -/
def textRule (v : PyVal) : Int :=
  if event_terms.contains (strKey v) then 1
  else if censored_terms.contains (strKey v) then 0
  else 0

/-- series.map(dict built over the unique values).fillna(0): look the cell
up among the unique values by Python equality; an unmapped cell becomes 0. -/
def mapLookup (rule : PyVal → Int) (uniq : List PyVal) (v : PyVal) : Int :=
  match uniq.find? (fun u => pyEq v u) with
  | some u => rule u
  | none => 0

/-- set(event_series.dropna().unique()) of the normalizer. -/
def eventUniq (col : List PyVal) : List PyVal :=
  dedupBy pyEq (cleanCol col)

/-- The distinct values of pd.to_numeric(col, errors=coerce) with NaN
dropped (pattern 4 of the normalizer). -/
def numericUniq (col : List PyVal) : List ℚ :=
  dedupBy (fun a b => a == b) ((col.map pyToNumeric).filterMap id)

/-- PublicationVizEngine._detect_and_convert_event_variable (lines 72-152):
the ordered strategy chain, first match wins, falling back to an all-zero
(all censored) column, never an exception. -/
def detect_and_convert_event_variable (col : List PyVal) : List Int :=
  if (eventUniq col).all (fun v =>
      pyEq v (PyVal.vNum 0) || pyEq v (PyVal.vNum 1)) then
    col.map pyToInt
  else if (eventUniq col).all (fun v =>
      pyEq v (PyVal.vBool true) || pyEq v (PyVal.vBool false)) then
    col.map pyToInt
  else if (eventUniq col).any (fun v => strHasChar ':' (pyStrRepr v)) then
    col.map (mapLookup colonRule (eventUniq col))
  else if (eventUniq col).all (fun v =>
      event_terms.contains (strKey v) || censored_terms.contains (strKey v)) then
    col.map (mapLookup textRule (eventUniq col))
  else if (numericUniq col).all (fun q => q == 0 || q == 1) then
    (col.map pyToNumeric).map (fun o => match o with
      | some q => q.num.tdiv q.den
      | none => 0)
  else if (numericUniq col).length == 2 then
    match numericUniq col with
    | a :: b :: _ =>
      (col.map pyToNumeric).map (fun o => match o with
        | some q => if q == min a b then (0 : Int) else if q == max a b then 1 else 0
        | none => 0)
    | _ => List.replicate col.length 0
  else List.replicate col.length 0

/-- Whether some strategy of the chain matches the column: the disjunction
of the five guards (pattern 4 matches when the coerced distinct values lie
in 0/1 or number exactly two). -/
def eventStrategyMatches (col : List PyVal) : Bool :=
  (eventUniq col).all (fun v => pyEq v (PyVal.vNum 0) || pyEq v (PyVal.vNum 1)) ||
  (eventUniq col).all (fun v => pyEq v (PyVal.vBool true) || pyEq v (PyVal.vBool false)) ||
  (eventUniq col).any (fun v => strHasChar ':' (pyStrRepr v)) ||
  (eventUniq col).all (fun v =>
    event_terms.contains (strKey v) || censored_terms.contains (strKey v)) ||
  (numericUniq col).all (fun q => q == 0 || q == 1) ||
  (numericUniq col).length == 2

/-! ## Survival data validation (publication_viz_engine.py lines 154-194
and the gate of create_kaplan_meier_plot, lines 336-358) -/

/-- pandas Series.min() over the time column. -/
def seriesMin : List ℚ → Option ℚ
  | [] => none
  | x :: xs => some (xs.foldl min x)

/-- pandas Series.max() over the time column. -/
def seriesMax : List ℚ → Option ℚ
  | [] => none
  | x :: xs => some (xs.foldl max x)

/-- time_data.min() < 0 (a NaN minimum of an empty series compares false). -/
def negTimeFlag (l : List ℚ) : Bool :=
  match seriesMin l with
  | some m => decide (m < 0)
  | none => false

/-- time_data.max() == time_data.min() (false on an empty series). -/
def constTimeFlag (l : List ℚ) : Bool :=
  match seriesMax l, seriesMin l with
  | some M, some m => M == m
  | _, _ => false

/-- The validation dictionary of _validate_survival_data. -/
structure SurvivalValidation where
  total_observations : Nat
  events : Int
  censored : Int
  event_rate : ℚ
  warnings : List String
  valid : Bool
deriving DecidableEq

/-- The event rate: events / total when the series is non-empty, else 0
(line 162). -/
def eventRate (time_data : List ℚ) (event_data : List Int) : ℚ :=
  if 0 < time_data.length then
    mkRat (event_data.foldl (fun a b => a + b) 0) time_data.length
  else 0

/-- The warning list of the rate elif-chain (lines 174-183); the percent
formatting of the borderline messages is abbreviated. -/
def rateWarnings (r : ℚ) : List String :=
  if r == 0 then ["WARNING: No events detected - all observations censored"]
  else if r == 1 then
    ["CRITICAL: 100% event rate - no censored observations (check event variable coding)"]
  else if mkRat 95 100 < r then
    ["WARNING: Very high event rate (" ++ toString r ++ ") - unusual for survival data"]
  else if r < mkRat 5 100 then
    ["WARNING: Very low event rate (" ++ toString r ++ ") - check if events are coded correctly"]
  else []

/-- PublicationVizEngine._validate_survival_data (lines 154-194): the
series is invalid exactly when the rate is 0 or 1, a time is negative, or
all times coincide; borderline rates only warn. -/
def validate_survival_data (time_data : List ℚ) (event_data : List Int) :
    SurvivalValidation :=
  ⟨time_data.length,
   event_data.foldl (fun a b => a + b) 0,
   (time_data.length : Int) - event_data.foldl (fun a b => a + b) 0,
   eventRate time_data event_data,
   rateWarnings (eventRate time_data event_data) ++
     (if negTimeFlag time_data then ["ERROR: Negative time values detected"] else []) ++
     (if constTimeFlag time_data then ["ERROR: All time values are identical"] else []),
   !((eventRate time_data event_data == 0 || eventRate time_data event_data == 1) ||
     negTimeFlag time_data || constTimeFlag time_data)⟩

/-- The validation gate of create_kaplan_meier_plot (lines 336-358) on the
already-converted numeric series: an invalid validation raises a ValueError
carrying the event counts, then the residual emptiness, negativity and
0/1-coding checks run; a surviving series is handed to the lifelines fit. -/
def km_survival_gate (time_data : List ℚ) (event_data : List Int) :
    Except String (List ℚ × List Int) :=
  if (validate_survival_data time_data event_data).valid = false then
    Except.error ("Survival data validation failed. Events: " ++
      toString (validate_survival_data time_data event_data).events ++ "/" ++
      toString (validate_survival_data time_data event_data).total_observations)
  else if time_data.length = 0 || event_data.length = 0 then
    Except.error "No valid survival data found after cleaning"
  else if negTimeFlag time_data then
    Except.error "Time values cannot be negative"
  else if !((dedupBy (fun a b => a == b) event_data).all (fun v => v == 0 || v == 1)) then
    Except.error "Event values must be 0 (censored) or 1 (event occurred)"
  else Except.ok (time_data, event_data)

/-! ## Helper lemmas -/

theorem mem_of_mem_dedupByAux {eq : α → α → Bool} {seen l : List α} {u : α}
    (h : u ∈ dedupByAux eq seen l) : u ∈ l := by
  induction l generalizing seen with
  | nil => simp [dedupByAux] at h
  | cons x xs ih =>
    simp only [dedupByAux] at h
    split at h
    · exact List.mem_cons_of_mem _ (ih h)
    · rcases List.mem_cons.mp h with h1 | h2
      · exact h1 ▸ List.mem_cons_self _ _
      · exact List.mem_cons_of_mem _ (ih h2)

theorem mem_of_mem_dedupBy {eq : α → α → Bool} {l : List α} {u : α}
    (h : u ∈ dedupBy eq l) : u ∈ l :=
  mem_of_mem_dedupByAux h

theorem exists_dedupByAux_rep {eq : α → α → Bool} {l : List α} {v : α}
    (hv : v ∈ l) (hrefl : eq v v = true) (seen : List α) :
    (∃ y ∈ seen, eq v y = true) ∨ ∃ u ∈ dedupByAux eq seen l, eq v u = true := by
  induction l generalizing seen with
  | nil => cases hv
  | cons x xs ih =>
    rcases List.mem_cons.mp hv with rfl | hvx
    · simp only [dedupByAux]
      by_cases hs : seen.any (fun y => eq v y) = true
      · exact Or.inl (by simpa using List.any_eq_true.mp hs)
      · rw [if_neg hs]
        exact Or.inr ⟨v, List.mem_cons_self _ _, hrefl⟩
    · simp only [dedupByAux]
      by_cases hs : seen.any (fun y => eq x y) = true
      · rw [if_pos hs]; exact ih hvx seen
      · rw [if_neg hs]
        rcases ih hvx (x :: seen) with ⟨y, hy, he⟩ | ⟨u, hu, he⟩
        · rcases List.mem_cons.mp hy with rfl | hys
          · exact Or.inr ⟨y, List.mem_cons_self _ _, he⟩
          · exact Or.inl ⟨y, hys, he⟩
        · exact Or.inr ⟨u, List.mem_cons_of_mem _ hu, he⟩

theorem exists_dedupBy_rep {eq : α → α → Bool} {l : List α} {v : α}
    (hv : v ∈ l) (hrefl : eq v v = true) :
    ∃ u ∈ dedupBy eq l, eq v u = true := by
  rcases exists_dedupByAux_rep hv hrefl [] with ⟨y, hy, _⟩ | h
  · cases hy
  · exact h

theorem pyEq_refl {v : PyVal} (h : v ≠ PyVal.vNone) : pyEq v v = true := by
  cases v with
  | vNum q => simp [pyEq]
  | vBool b => simp [pyEq]
  | vStr s => simp [pyEq]
  | vNone => exact absurd rfl h

theorem pyEq_vStr {s : String} {u : PyVal} (h : pyEq (PyVal.vStr s) u = true) :
    u = PyVal.vStr s := by
  cases u with
  | vStr t => simp [pyEq] at h; rw [h]
  | vNum q => simp [pyEq] at h
  | vBool b => simp [pyEq] at h
  | vNone => simp [pyEq] at h

theorem mem_cleanCol {v : PyVal} {col : List PyVal}
    (hv : v ∈ col) (hn : v ≠ PyVal.vNone) : v ∈ cleanCol col := by
  refine List.mem_filter.mpr ⟨hv, ?_⟩
  simpa using hn

theorem cleanCol_subset {v : PyVal} {col : List PyVal} (h : v ∈ cleanCol col) : v ∈ col :=
  (List.mem_filter.mp h).1

theorem mem_eventUniq_rep {v : PyVal} {col : List PyVal}
    (hv : v ∈ col) (hn : v ≠ PyVal.vNone) :
    ∃ u ∈ eventUniq col, pyEq v u = true :=
  exists_dedupBy_rep (mem_cleanCol hv hn) (pyEq_refl hn)

theorem eventUniq_subset {u : PyVal} {col : List PyVal} (h : u ∈ eventUniq col) : u ∈ col :=
  cleanCol_subset (mem_of_mem_dedupBy h)

/-! ## Claims about the recommender -/

/-- A profile carrying both a time and an event variable, as a survival
dataset produces. -/
def survivalProfileExample : DataProfile :=
  ⟨40, "os_months", "continuous", some "arm", some "os_months", some "os_event", false,
   ["os_months", "os_event", "arm"], some 2,
   some [PyVal.vStr "A", PyVal.vStr "B"],
   some [(PyVal.vStr "A", 20), (PyVal.vStr "B", 20)]⟩

/-- Claim C1 counterexample: on a profile with both time_variable and
event_variable present, StatisticalBrain.recommend_test does not return a
sole survival candidate at confidence 1.0: it returns the t-test as primary
with a nonempty list of alternatives contributed by the two-group
continuous rule. -/
theorem claim_C1_counterexample :
    survivalProfileExample.time_variable = some "os_months" ∧
    survivalProfileExample.event_variable = some "os_event" ∧
    recommend_test survivalProfileExample =
      ⟨TestType.t_test,
       [⟨TestType.mann_whitney, mkRat 8 10, "Non-parametric alternative for two groups"⟩],
       "Two groups, continuous outcome, adequate sample size"⟩ ∧
    (recommend_test survivalProfileExample).alternatives ≠ [] := by decide

/-- Claim C1 amended: StatisticalBrain.recommend_test ignores the time and
event variables entirely (no survival rule exists in it); the survival
short-circuit described by the spec holds of the sibling recommender
recommend_statistical_test in scifig_api_server.py, which returns
survival_analysis alone whenever both variables are truthy. -/
theorem claim_C1_amended :
    (∀ (p : DataProfile) (t e : Option String),
      recommend_test { p with time_variable := t, event_variable := e } =
        recommend_test p) ∧
    (∀ q : ApiDataProfile, pyTruthyOptStr q.time_variable = true →
      pyTruthyOptStr q.event_variable = true →
      recommend_statistical_test q = Except.ok ("survival_analysis", none)) := by
  constructor
  · intro p t e
    rfl
  · intro q h1 h2
    unfold recommend_statistical_test
    rw [h1, h2]
    simp

/-- Claim C1 witness: the amended statement applied at a concrete profile
and a concrete api profile. -/
theorem claim_C1_witness :
    (recommend_test
      { survivalProfileExample with
          time_variable := some "t", event_variable := some "e" } =
      recommend_test survivalProfileExample) ∧
    recommend_statistical_test ⟨"continuous", 2, 40, some "time", some "event"⟩ =
      Except.ok ("survival_analysis", none) :=
  ⟨claim_C1_amended.1 survivalProfileExample (some "t") (some "e"),
   claim_C1_amended.2 ⟨"continuous", 2, 40, some "time", some "event"⟩ (by decide) (by decide)⟩

/-- Claim C4: on a profile with continuous outcome and exactly two groups,
the t-test is recommended exactly when the sample size reaches 30, at
confidence 0.9 above the always-present Mann-Whitney 0.8, and becomes
primary; below 30 the primary is Mann-Whitney with no alternative. -/
theorem claim_C4_two_group_continuous (p : DataProfile)
    (hc : p.outcome_type = "continuous") (hg : p.n_groups = some 2) :
    (30 ≤ p.sample_size →
      recommend_test p =
        ⟨TestType.t_test,
         [⟨TestType.mann_whitney, mkRat 8 10, "Non-parametric alternative for two groups"⟩],
         "Two groups, continuous outcome, adequate sample size"⟩) ∧
    (p.sample_size < 30 →
      recommend_test p =
        ⟨TestType.mann_whitney, [], "Non-parametric alternative for two groups"⟩) := by
  constructor
  · intro h
    have hb : buildRecommendations p =
        [⟨TestType.t_test, mkRat 9 10, "Two groups, continuous outcome, adequate sample size"⟩,
         ⟨TestType.mann_whitney, mkRat 8 10, "Non-parametric alternative for two groups"⟩] := by
      unfold buildRecommendations
      rw [hc, hg]
      simp [h]
    unfold recommend_test
    rw [hb]
    decide
  · intro h
    have hnot : ¬ 30 ≤ p.sample_size := by omega
    have hb : buildRecommendations p =
        [⟨TestType.mann_whitney, mkRat 8 10, "Non-parametric alternative for two groups"⟩] := by
      unfold buildRecommendations
      rw [hc, hg]
      simp [hnot]
    unfold recommend_test
    rw [hb]
    decide

/-- Claim C4 witness: the two branches applied at concrete profiles with
sample sizes 40 and 16. -/
theorem claim_C4_witness :
    recommend_test ⟨40, "o", "continuous", some "g", none, none, false, ["o", "g"],
        some 2, none, none⟩ =
      ⟨TestType.t_test,
       [⟨TestType.mann_whitney, mkRat 8 10, "Non-parametric alternative for two groups"⟩],
       "Two groups, continuous outcome, adequate sample size"⟩ ∧
    recommend_test ⟨16, "o", "continuous", some "g", none, none, false, ["o", "g"],
        some 2, none, none⟩ =
      ⟨TestType.mann_whitney, [], "Non-parametric alternative for two groups"⟩ :=
  ⟨(claim_C4_two_group_continuous _ rfl rfl).1 (by decide),
   (claim_C4_two_group_continuous _ rfl rfl).2 (by decide)⟩

/-- Claim C7 counterexample: on a profile matched by no rule (continuous
outcome, a single group) the recommender does not fail: it returns the
default T_TEST with the reasoning Default test. -/
theorem claim_C7_counterexample :
    recommend_test ⟨10, "out", "continuous", some "g", none, none, false, ["out", "g"],
        some 1, some [PyVal.vStr "only"], some [(PyVal.vStr "only", 10)]⟩ =
      ⟨TestType.t_test, [], "Default test"⟩ := by decide

/-- Claim C7 amended: when no rule matches (continuous outcome with fewer
than two groups), recommend_test returns the hardcoded default primary
T_TEST with reasoning Default test instead of failing. -/
theorem claim_C7_amended (p : DataProfile) (hc : p.outcome_type = "continuous")
    (hg : p.n_groups = none ∨ ∃ k, p.n_groups = some k ∧ k < 2) :
    recommend_test p = ⟨TestType.t_test, [], "Default test"⟩ := by
  have hb : buildRecommendations p = [] := by
    unfold buildRecommendations
    rcases hg with hg | ⟨k, hg, hk⟩
    · rw [hc, hg]
      simp
    · rw [hc, hg]
      interval_cases k
      · simp
      · simp
  unfold recommend_test
  rw [hb]
  decide

/-- Claim C7 witness: the amended statement applied at a concrete
one-group continuous profile. -/
theorem claim_C7_witness :
    recommend_test ⟨5, "o", "continuous", none, none, none, false, ["o"],
        some 1, none, none⟩ =
      ⟨TestType.t_test, [], "Default test"⟩ :=
  claim_C7_amended _ rfl (Or.inr ⟨1, rfl, by decide⟩)

/-! ## Claims about the orchestrator -/

/-- The two-group continuous scenario of the spec, section 8: sixteen rows,
groups A and B, all outcome values distinct, so the outcome profiles as
continuous and the sample size is below 30. -/
def scenarioRows : List (List (String × PyVal)) :=
  [[("outcome", PyVal.vNum (mkRat 85 100)), ("group", PyVal.vStr "A")],
   [("outcome", PyVal.vNum (mkRat 91 100)), ("group", PyVal.vStr "A")],
   [("outcome", PyVal.vNum (mkRat 88 100)), ("group", PyVal.vStr "A")],
   [("outcome", PyVal.vNum (mkRat 92 100)), ("group", PyVal.vStr "A")],
   [("outcome", PyVal.vNum (mkRat 89 100)), ("group", PyVal.vStr "A")],
   [("outcome", PyVal.vNum (mkRat 87 100)), ("group", PyVal.vStr "A")],
   [("outcome", PyVal.vNum (mkRat 90 100)), ("group", PyVal.vStr "A")],
   [("outcome", PyVal.vNum (mkRat 86 100)), ("group", PyVal.vStr "A")],
   [("outcome", PyVal.vNum (mkRat 72 100)), ("group", PyVal.vStr "B")],
   [("outcome", PyVal.vNum (mkRat 68 100)), ("group", PyVal.vStr "B")],
   [("outcome", PyVal.vNum (mkRat 74 100)), ("group", PyVal.vStr "B")],
   [("outcome", PyVal.vNum (mkRat 71 100)), ("group", PyVal.vStr "B")],
   [("outcome", PyVal.vNum (mkRat 69 100)), ("group", PyVal.vStr "B")],
   [("outcome", PyVal.vNum (mkRat 73 100)), ("group", PyVal.vStr "B")],
   [("outcome", PyVal.vNum (mkRat 70 100)), ("group", PyVal.vStr "B")],
   [("outcome", PyVal.vNum (mkRat 75 100)), ("group", PyVal.vStr "B")]]

/-- A workflow stage that always succeeds, standing for the scipy-backed
workflow methods on a well-behaved dataset. -/
def okWorkflow : TestType → Except String ExecResult :=
  fun _ => Except.ok ⟨"done", mkRat 1 2⟩

/-- Claim C2 counterexample: on the sixteen-row two-group scenario the
recommender picks Mann-Whitney as primary, yet the orchestrator dispatch
executes the t-test workflow, not a Mann-Whitney one. -/
theorem claim_C2_counterexample :
    (run_analysis okWorkflow scenarioRows "outcome" (some "group") none none).recommendation =
      some ⟨TestType.mann_whitney, [], "Non-parametric alternative for two groups"⟩ ∧
    (run_analysis okWorkflow scenarioRows "outcome" (some "group") none none).executed_test =
      some TestType.t_test ∧
    TestType.t_test ≠ TestType.mann_whitney := by decide

/-- Claim C2 amended: the orchestrator executes the recommended primary
only when that primary is the t-test or the chi-square test; for every
other primary (Mann-Whitney included) it falls back to the t-test
workflow, per the dispatch on lines 375-381. -/
theorem run_analysis_profile_error {workflow : TestType → Except String ExecResult}
    {data : List (List (String × PyVal))} {outcome_var : String}
    {group_var time_var event_var : Option String} {msg : String}
    (hp : profile_data data outcome_var group_var time_var event_var = Except.error msg) :
    run_analysis workflow data outcome_var group_var time_var event_var =
      failedOutcome msg := by
  unfold run_analysis
  rw [hp]

theorem run_analysis_workflow_error {workflow : TestType → Except String ExecResult}
    {data : List (List (String × PyVal))} {outcome_var : String}
    {group_var time_var event_var : Option String} {profile : DataProfile} {msg : String}
    (hp : profile_data data outcome_var group_var time_var event_var = Except.ok profile)
    (hw : workflow (chooseWorkflow (recommend_test profile).primary) = Except.error msg) :
    run_analysis workflow data outcome_var group_var time_var event_var =
      failedOutcome msg := by
  unfold run_analysis
  rw [hp]
  dsimp only
  rw [hw]

theorem run_analysis_completed {workflow : TestType → Except String ExecResult}
    {data : List (List (String × PyVal))} {outcome_var : String}
    {group_var time_var event_var : Option String} {profile : DataProfile}
    {result : ExecResult}
    (hp : profile_data data outcome_var group_var time_var event_var = Except.ok profile)
    (hw : workflow (chooseWorkflow (recommend_test profile).primary) = Except.ok result) :
    run_analysis workflow data outcome_var group_var time_var event_var =
      ⟨some profile, some (recommend_test profile), some result,
       some (chooseWorkflow (recommend_test profile).primary), "completed", none⟩ := by
  unfold run_analysis
  rw [hp]
  dsimp only
  rw [hw]

theorem claim_C2_amended (workflow : TestType → Except String ExecResult)
    (data : List (List (String × PyVal))) (outcome_var : String)
    (group_var time_var event_var : Option String) (rec : RecommendResult)
    (h : (run_analysis workflow data outcome_var group_var time_var event_var).recommendation =
      some rec) :
    (run_analysis workflow data outcome_var group_var time_var event_var).executed_test =
      some (if rec.primary = TestType.chi_square then TestType.chi_square
            else TestType.t_test) := by
  cases hp : profile_data data outcome_var group_var time_var event_var with
  | error e =>
    rw [run_analysis_profile_error hp] at h
    simp [failedOutcome] at h
  | ok profile =>
    cases hw : workflow (chooseWorkflow (recommend_test profile).primary) with
    | error e =>
      rw [run_analysis_workflow_error hp hw] at h
      simp [failedOutcome] at h
    | ok result =>
      rw [run_analysis_completed hp hw] at h
      simp only [Option.some.injEq] at h
      subst h
      rw [run_analysis_completed hp hw]
      simp only [Option.some.injEq]
      generalize (recommend_test profile).primary = t
      cases t <;> decide

/-- Claim C2 witness: the amended dispatch applied to the completed
sixteen-row run, whose primary is Mann-Whitney and whose executed workflow
is therefore the t-test one. -/
theorem claim_C2_witness :
    (run_analysis okWorkflow scenarioRows "outcome" (some "group") none none).executed_test =
      some (if (⟨TestType.mann_whitney, [], "Non-parametric alternative for two groups"⟩ :
              RecommendResult).primary = TestType.chi_square then TestType.chi_square
            else TestType.t_test) :=
  claim_C2_amended okWorkflow scenarioRows "outcome" (some "group") none none
    ⟨TestType.mann_whitney, [], "Non-parametric alternative for two groups"⟩ (by decide)

/-- Claim C3: run_analysis is a total function into outcome values whose
status is always completed or failed; an error raised by the profiling
stage, or by the dispatched workflow, is caught and packaged as a failed
outcome carrying the message, and a failed status always carries an error
message.  The orchestrator never propagates an exception: in the embedding
every exception of a stage is an error value, and the result type of
run_analysis is not fallible. -/
theorem claim_C3_exception_boundary (workflow : TestType → Except String ExecResult)
    (data : List (List (String × PyVal))) (outcome_var : String)
    (group_var time_var event_var : Option String) :
    ((run_analysis workflow data outcome_var group_var time_var event_var).status =
        "completed" ∨
      (run_analysis workflow data outcome_var group_var time_var event_var).status =
        "failed") ∧
    (∀ msg, profile_data data outcome_var group_var time_var event_var = Except.error msg →
      run_analysis workflow data outcome_var group_var time_var event_var =
        failedOutcome msg) ∧
    (∀ profile msg,
      profile_data data outcome_var group_var time_var event_var = Except.ok profile →
      workflow (chooseWorkflow (recommend_test profile).primary) = Except.error msg →
      run_analysis workflow data outcome_var group_var time_var event_var =
        failedOutcome msg) ∧
    ((run_analysis workflow data outcome_var group_var time_var event_var).status =
        "failed" →
      ∃ msg, (run_analysis workflow data outcome_var group_var time_var event_var).error =
        some msg) := by
  cases hp : profile_data data outcome_var group_var time_var event_var with
  | error e =>
    have h1 : run_analysis workflow data outcome_var group_var time_var event_var =
        failedOutcome e := run_analysis_profile_error hp
    refine ⟨Or.inr (by rw [h1]; rfl), ?_, ?_, ?_⟩
    · intro msg hmsg
      cases hmsg
      exact h1
    · intro profile msg hok hwf
      cases hok
    · intro _
      rw [h1]
      exact ⟨e, rfl⟩
  | ok profile =>
    cases hw : workflow (chooseWorkflow (recommend_test profile).primary) with
    | error e =>
      have h1 := run_analysis_workflow_error hp hw
      refine ⟨Or.inr (by rw [h1]; rfl), ?_, ?_, ?_⟩
      · intro msg hmsg
        cases hmsg
      · intro profile2 msg hok hwf
        cases hok
        rw [hw] at hwf
        cases hwf
        exact h1
      · intro _
        rw [h1]
        exact ⟨e, rfl⟩
    | ok result =>
      have h1 := run_analysis_completed hp hw
      refine ⟨Or.inl (by rw [h1]), ?_, ?_, ?_⟩
      · intro msg hmsg
        cases hmsg
      · intro profile2 msg hok hwf
        cases hok
        rw [hw] at hwf
        cases hwf
      · intro hst
        rw [h1] at hst
        simp at hst

/-- Claim C3 witness: the boundary applied at a failing profiling stage (a
missing outcome column) and at a failing workflow stage. -/
theorem claim_C3_witness :
    run_analysis okWorkflow [[("x", PyVal.vNum 1)]] "y" none none none =
      failedOutcome "KeyError: y" ∧
    run_analysis (fun _ => Except.error "scipy blew up") scenarioRows "outcome"
        (some "group") none none =
      failedOutcome "scipy blew up" :=
  ⟨(claim_C3_exception_boundary okWorkflow [[("x", PyVal.vNum 1)]] "y"
      none none none).2.1 "KeyError: y" (by decide),
   (claim_C3_exception_boundary (fun _ => Except.error "scipy blew up") scenarioRows
      "outcome" (some "group") none none).2.2.1
     ⟨16, "outcome", "continuous", some "group", none, none, true,
      ["outcome", "group"], some 2,
      some [PyVal.vStr "A", PyVal.vStr "B"],
      some [(PyVal.vStr "B", 8), (PyVal.vStr "A", 8)]⟩
     "scipy blew up" (by decide) rfl⟩

/-! ## Claim about the profiler -/

/-- Claim C8 counterexample: a provided group variable that is not a column
does not make profiling fail: the profile is returned with every group
field unset. -/
theorem claim_C8_counterexample :
    profile_data [[("x", PyVal.vNum 1)], [("x", PyVal.vNum 2)], [("x", PyVal.vNum 3)]]
        "x" (some "missing") none none =
      Except.ok ⟨3, "x", "categorical", some "missing", none, none, false, ["x"],
        none, none, none⟩ := by decide

/-- Claim C8 amended: a missing outcome variable raises a KeyError that
propagates out of profile_data, but a provided group variable absent from
the columns is silently skipped: profiling succeeds with the group fields
left unset. -/
theorem claim_C8_amended (rows : List (List (String × PyVal))) (outcome_var : String)
    (group_var time_var event_var : Option String) :
    (outcome_var ∉ dfColumns rows →
      profile_data rows outcome_var group_var time_var event_var =
        Except.error ("KeyError: " ++ outcome_var)) ∧
    (∀ g, group_var = some g → g ∉ dfColumns rows → outcome_var ∈ dfColumns rows →
      profile_data rows outcome_var group_var time_var event_var =
        Except.ok ⟨rows.length, outcome_var,
          determine_variable_type (colValues rows outcome_var),
          group_var, time_var, event_var, false, dfColumns rows, none, none, none⟩) := by
  constructor
  · intro hout
    unfold profile_data
    rw [if_neg]
    intro hc
    exact hout (List.elem_iff.mp hc)
  · intro g hg hgmem houtmem
    unfold profile_data
    rw [if_pos (List.elem_iff.mpr houtmem), hg]
    dsimp only
    have hfalse : ((dfColumns rows).contains g) = false := by
      simpa using hgmem
    rw [hfalse]
    simp

/-- Claim C8 witness: the amended statement applied at concrete rows with
a missing outcome column and with a missing group column. -/
theorem claim_C8_witness :
    profile_data [[("x", PyVal.vNum 1)]] "y" none none none =
      Except.error ("KeyError: " ++ "y") ∧
    profile_data [[("x", PyVal.vNum 7)]] "x" (some "g") none none =
      Except.ok ⟨1, "x",
        determine_variable_type (colValues [[("x", PyVal.vNum 7)]] "x"),
        some "g", none, none, false, dfColumns [[("x", PyVal.vNum 7)]],
        none, none, none⟩ :=
  ⟨(claim_C8_amended [[("x", PyVal.vNum 1)]] "y" none none none).1 (by decide),
   (claim_C8_amended [[("x", PyVal.vNum 7)]] "x" (some "g") none none).2 "g" rfl
     (by decide) (by decide)⟩

/-! ## Claims about the assumption checker -/

/-- Claim C9: check_normality fails below three observations with the
insufficient-data reason and no statistic or p-value; at three or more,
when the shapiro routine succeeds, passed is exactly p_value > alpha and
the statistic and p-value are reported. -/
theorem claim_C9_check_normality (shapiro : List ℚ → Except String (ℚ × ℚ))
    (data : List ℚ) (alpha st p : ℚ) :
    (data.length < 3 →
      check_normality shapiro data alpha =
        ⟨"shapiro_wilk", false, none, none,
         some "Insufficient data for normality test"⟩) ∧
    (3 ≤ data.length → shapiro data = Except.ok (st, p) →
      (check_normality shapiro data alpha).passed = decide (alpha < p) ∧
      (check_normality shapiro data alpha).p_value = some p ∧
      (check_normality shapiro data alpha).statistic = some st) := by
  constructor
  · intro h
    unfold check_normality
    rw [if_pos h]
  · intro h hs
    have hnot : ¬ data.length < 3 := by omega
    unfold check_normality
    rw [if_neg hnot, hs]
    exact ⟨rfl, rfl, rfl⟩

/-- Claim C9 witness: both branches applied at concrete samples, with a
shapiro stub succeeding at statistic 0.95 and p-value 0.1 against alpha
0.05. -/
theorem claim_C9_witness :
    check_normality (fun _ => Except.ok (mkRat 95 100, mkRat 1 10)) [1] (mkRat 5 100) =
      ⟨"shapiro_wilk", false, none, none,
       some "Insufficient data for normality test"⟩ ∧
    (check_normality (fun _ => Except.ok (mkRat 95 100, mkRat 1 10)) [1, 2, 3]
        (mkRat 5 100)).passed = decide (mkRat 5 100 < mkRat 1 10) :=
  ⟨(claim_C9_check_normality (fun _ => Except.ok (mkRat 95 100, mkRat 1 10)) [1]
      (mkRat 5 100) (mkRat 95 100) (mkRat 1 10)).1 (by decide),
   ((claim_C9_check_normality (fun _ => Except.ok (mkRat 95 100, mkRat 1 10)) [1, 2, 3]
      (mkRat 5 100) (mkRat 95 100) (mkRat 1 10)).2 (by decide) rfl).1⟩

/-- Claim C10: both checker entry points are total functions into
AssumptionResult values (no exception escapes the embedding); whenever the
underlying scipy routine raises, the caught result has passed = False and
a non-empty reason, and below three observations check_normality also
returns passed = False with a non-empty reason without consulting the
routine at all. -/
theorem claim_C10_checker_total (shapiro : List ℚ → Except String (ℚ × ℚ))
    (levene : List ℚ → List ℚ → Except String (ℚ × ℚ))
    (data group1 group2 : List ℚ) (alpha : ℚ) (e : String) :
    (shapiro data = Except.error e →
      (check_normality shapiro data alpha).passed = false ∧
      ∃ r, (check_normality shapiro data alpha).reason = some r ∧ r.length ≠ 0) ∧
    (levene group1 group2 = Except.error e →
      check_equal_variance levene group1 group2 alpha =
        ⟨"levene", false, none, none, some ("Test failed: " ++ e)⟩ ∧
      ("Test failed: " ++ e).length ≠ 0) := by
  constructor
  · intro hs
    by_cases h3 : data.length < 3
    · unfold check_normality
      rw [if_pos h3]
      exact ⟨rfl, "Insufficient data for normality test", rfl, by decide⟩
    · unfold check_normality
      rw [if_neg h3, hs]
      refine ⟨rfl, "Test failed: " ++ e, rfl, ?_⟩
      rw [String.length_append]
      have h13 : ("Test failed: " : String).length = 13 := rfl
      omega
  · intro hl
    unfold check_equal_variance
    rw [hl]
    refine ⟨rfl, ?_⟩
    rw [String.length_append]
    have h13 : ("Test failed: " : String).length = 13 := rfl
    omega

/-- Claim C10 witness: the two error paths applied with routines that
raise, at a long enough sample so the shapiro error path is the one
exercised. -/
theorem claim_C10_witness :
    (check_normality (fun _ => Except.error "zero variance") [1, 1, 1]
        (mkRat 5 100)).passed = false ∧
    check_equal_variance (fun _ _ => Except.error "levene failed") [1, 1] [2, 2]
        (mkRat 5 100) =
      ⟨"levene", false, none, none, some ("Test failed: " ++ "levene failed")⟩ :=
  ⟨((claim_C10_checker_total (fun _ => Except.error "zero variance")
      (fun _ _ => Except.error "zero variance") [1, 1, 1] [1] [2] (mkRat 5 100)
      "zero variance").1 rfl).1,
   ((claim_C10_checker_total (fun _ => Except.error "levene failed")
      (fun _ _ => Except.error "levene failed") [1, 1, 1] [1, 1] [2, 2] (mkRat 5 100)
      "levene failed").2 rfl).1⟩

/-! ## Claim about survival data validation -/

theorem foldl_min_le_init (xs : List ℚ) (x : ℚ) : xs.foldl min x ≤ x := by
  induction xs generalizing x with
  | nil => exact le_refl x
  | cons a as ih => exact le_trans (ih (min x a)) (min_le_left x a)

theorem foldl_min_le_mem {xs : List ℚ} {y : ℚ} (h : y ∈ xs) (x : ℚ) :
    xs.foldl min x ≤ y := by
  induction xs generalizing x with
  | nil => cases h
  | cons a as ih =>
    rcases List.mem_cons.mp h with rfl | hy
    · exact le_trans (foldl_min_le_init as (min x y)) (min_le_right x y)
    · exact ih hy (min x a)

theorem foldl_min_mem (xs : List ℚ) (x : ℚ) :
    xs.foldl min x = x ∨ xs.foldl min x ∈ xs := by
  induction xs generalizing x with
  | nil => exact Or.inl rfl
  | cons a as ih =>
    rw [List.foldl_cons]
    rcases ih (min x a) with h | h
    · rcases min_choice x a with hc | hc
      · exact Or.inl (by rw [h, hc])
      · exact Or.inr (by rw [h, hc]; exact List.mem_cons_self _ _)
    · exact Or.inr (List.mem_cons_of_mem _ h)

theorem foldl_max_init_le (xs : List ℚ) (x : ℚ) : x ≤ xs.foldl max x := by
  induction xs generalizing x with
  | nil => exact le_refl x
  | cons a as ih => exact le_trans (le_max_left x a) (ih (max x a))

theorem foldl_max_mem_le {xs : List ℚ} {y : ℚ} (h : y ∈ xs) (x : ℚ) :
    y ≤ xs.foldl max x := by
  induction xs generalizing x with
  | nil => cases h
  | cons a as ih =>
    rcases List.mem_cons.mp h with rfl | hy
    · exact le_trans (le_max_right x y) (foldl_max_init_le as (max x y))
    · exact ih hy (max x a)

theorem foldl_max_mem (xs : List ℚ) (x : ℚ) :
    xs.foldl max x = x ∨ xs.foldl max x ∈ xs := by
  induction xs generalizing x with
  | nil => exact Or.inl rfl
  | cons a as ih =>
    rw [List.foldl_cons]
    rcases ih (max x a) with h | h
    · rcases max_choice x a with hc | hc
      · exact Or.inl (by rw [h, hc])
      · exact Or.inr (by rw [h, hc]; exact List.mem_cons_self _ _)
    · exact Or.inr (List.mem_cons_of_mem _ h)

theorem negTimeFlag_iff (l : List ℚ) : negTimeFlag l = true ↔ ∃ x ∈ l, x < 0 := by
  cases l with
  | nil => simp [negTimeFlag, seriesMin]
  | cons x xs =>
    simp only [negTimeFlag, seriesMin]
    constructor
    · intro h
      have hlt : xs.foldl min x < 0 := of_decide_eq_true h
      rcases foldl_min_mem xs x with he | he
      · exact ⟨x, List.mem_cons_self _ _, he ▸ hlt⟩
      · exact ⟨_, List.mem_cons_of_mem _ he, hlt⟩
    · rintro ⟨y, hy, hylt⟩
      apply decide_eq_true
      rcases List.mem_cons.mp hy with rfl | hy2
      · exact lt_of_le_of_lt (foldl_min_le_init xs y) hylt
      · exact lt_of_le_of_lt (foldl_min_le_mem hy2 x) hylt

theorem constTimeFlag_iff (l : List ℚ) :
    constTimeFlag l = true ↔ (l ≠ [] ∧ ∀ x ∈ l, ∀ y ∈ l, x = y) := by
  cases l with
  | nil => simp [constTimeFlag, seriesMax, seriesMin]
  | cons x xs =>
    simp only [constTimeFlag, seriesMax, seriesMin]
    constructor
    · intro h
      have heq : xs.foldl max x = xs.foldl min x := by
        exact beq_iff_eq.mp h
      refine ⟨List.cons_ne_nil _ _, ?_⟩
      have hub : ∀ y ∈ x :: xs, y ≤ xs.foldl max x := by
        intro y hy
        rcases List.mem_cons.mp hy with rfl | hy2
        · exact foldl_max_init_le xs y
        · exact foldl_max_mem_le hy2 x
      have hlb : ∀ y ∈ x :: xs, xs.foldl min x ≤ y := by
        intro y hy
        rcases List.mem_cons.mp hy with rfl | hy2
        · exact foldl_min_le_init xs y
        · exact foldl_min_le_mem hy2 x
      have hpin : ∀ y ∈ x :: xs, y = xs.foldl min x := by
        intro y hy
        exact le_antisymm (heq ▸ hub y hy) (hlb y hy)
      intro a ha b hb
      rw [hpin a ha, hpin b hb]
    · rintro ⟨-, hall⟩
      apply beq_iff_eq.mpr
      have hmaxmem : xs.foldl max x ∈ x :: xs := by
        rcases foldl_max_mem xs x with h | h
        · rw [h]; exact List.mem_cons_self _ _
        · exact List.mem_cons_of_mem _ h
      have hminmem : xs.foldl min x ∈ x :: xs := by
        rcases foldl_min_mem xs x with h | h
        · rw [h]; exact List.mem_cons_self _ _
        · exact List.mem_cons_of_mem _ h
      exact hall _ hmaxmem _ hminmem

/-- Claim C6: the survival series is marked invalid exactly when the event
rate is 0 or 1, some time value is negative, or the series is non-empty
with all time values identical; a series with a strictly interior rate,
no negative time and two distinct times is accepted; a borderline rate
(above 0.95 or below 0.05) always leaves a warning; and an invalid series
makes the Kaplan-Meier gate fail with a non-empty error message instead of
producing a result. -/
theorem claim_C6_survival_validation (time_data : List ℚ) (event_data : List Int) :
    ((validate_survival_data time_data event_data).valid = false ↔
      (eventRate time_data event_data = 0 ∨ eventRate time_data event_data = 1 ∨
       (∃ x ∈ time_data, x < 0) ∨
       (time_data ≠ [] ∧ ∀ x ∈ time_data, ∀ y ∈ time_data, x = y))) ∧
    (0 < eventRate time_data event_data → eventRate time_data event_data < 1 →
      (∀ x ∈ time_data, 0 ≤ x) → (∃ x ∈ time_data, ∃ y ∈ time_data, x ≠ y) →
      (validate_survival_data time_data event_data).valid = true) ∧
    ((mkRat 95 100 < eventRate time_data event_data ∨
      eventRate time_data event_data < mkRat 5 100) →
      (validate_survival_data time_data event_data).warnings ≠ []) ∧
    ((validate_survival_data time_data event_data).valid = false →
      ∃ msg, km_survival_gate time_data event_data = Except.error msg ∧
        msg.length ≠ 0) := by
  have hval : (validate_survival_data time_data event_data).valid =
      !((eventRate time_data event_data == 0 || eventRate time_data event_data == 1) ||
        negTimeFlag time_data || constTimeFlag time_data) := rfl
  refine ⟨?_, ?_, ?_, ?_⟩
  · have hIff : (validate_survival_data time_data event_data).valid = false ↔
        ((eventRate time_data event_data == 0 || eventRate time_data event_data == 1) ||
          negTimeFlag time_data || constTimeFlag time_data) = true := by
      rw [hval]
      cases (eventRate time_data event_data == 0 || eventRate time_data event_data == 1) ||
          negTimeFlag time_data || constTimeFlag time_data <;> simp
    rw [hIff]
    simp only [Bool.or_eq_true, beq_iff_eq, negTimeFlag_iff, constTimeFlag_iff, or_assoc]
  · intro h0 h1 hpos hdiff
    rw [hval]
    have ha : (eventRate time_data event_data == 0) = false :=
      beq_eq_false_iff_ne.mpr (ne_of_gt h0)
    have hb : (eventRate time_data event_data == 1) = false :=
      beq_eq_false_iff_ne.mpr (ne_of_lt h1)
    have hneg : negTimeFlag time_data = false := by
      rw [Bool.eq_false_iff]
      intro hf
      obtain ⟨x, hx, hlt⟩ := (negTimeFlag_iff _).mp hf
      exact absurd hlt (not_lt.mpr (hpos x hx))
    have hconst : constTimeFlag time_data = false := by
      rw [Bool.eq_false_iff]
      intro hf
      obtain ⟨-, hall⟩ := (constTimeFlag_iff _).mp hf
      obtain ⟨x, hx, y, hy, hne⟩ := hdiff
      exact hne (hall x hx y hy)
    rw [ha, hb, hneg, hconst]
    rfl
  · intro h
    have hwarn : (validate_survival_data time_data event_data).warnings =
        rateWarnings (eventRate time_data event_data) ++
          ((if negTimeFlag time_data then ["ERROR: Negative time values detected"] else []) ++
           (if constTimeFlag time_data then ["ERROR: All time values are identical"] else [])) := by
      simp [validate_survival_data, List.append_assoc]
    have hr : rateWarnings (eventRate time_data event_data) ≠ [] := by
      unfold rateWarnings
      split_ifs with h1 h2 h3 h4
      · simp
      · simp
      · simp
      · simp
      · rcases h with h | h
        · exact absurd h h3
        · exact absurd h h4
    rw [hwarn]
    intro hcontra
    exact hr (List.append_eq_nil.mp hcontra).1
  · intro hinvalid
    unfold km_survival_gate
    rw [if_pos hinvalid]
    refine ⟨_, rfl, ?_⟩
    rw [String.length_append, String.length_append, String.length_append]
    have hpre : ("Survival data validation failed. Events: " : String).length = 41 := rfl
    omega

/-- Claim C6 witness: an accepted series with interior rate and
well-formed times, and an all-censored series that makes the gate fail. -/
theorem claim_C6_witness :
    (validate_survival_data [1, 2] [1, 0]).valid = true ∧
    ∃ msg, km_survival_gate [1, 2, 3] [0, 0, 0] = Except.error msg ∧ msg.length ≠ 0 :=
  ⟨(claim_C6_survival_validation [1, 2] [1, 0]).2.1 (by decide) (by decide)
     (by decide) (by decide),
   (claim_C6_survival_validation [1, 2, 3] [0, 0, 0]).2.2.2 (by decide)⟩

/-! ## Claim about the event coding normalizer -/

theorem pyToInt_binary {v : PyVal}
    (h : pyEq v (PyVal.vNum 0) = true ∨ pyEq v (PyVal.vNum 1) = true) :
    pyToInt v = if pyEq v (PyVal.vNum 1) then 1 else 0 := by
  cases v with
  | vNum q =>
    rcases h with h | h
    · have hq : q = 0 := by simpa [pyEq] using h
      subst hq
      decide
    · have hq : q = 1 := by simpa [pyEq] using h
      subst hq
      decide
  | vBool b => cases b <;> decide
  | vStr s => rcases h with h | h <;> simp [pyEq] at h
  | vNone => rcases h with h | h <;> simp [pyEq] at h

theorem eventUniq_cons_head {x : PyVal} (xs : List PyVal) (hx : x ≠ PyVal.vNone) :
    ∃ rest, eventUniq (x :: xs) = x :: rest := by
  unfold eventUniq dedupBy cleanCol
  rw [List.filter_cons_of_pos]
  · exact ⟨dedupByAux pyEq [x] (xs.filter (fun v => !(v == PyVal.vNone))), rfl⟩
  · simpa using hx

theorem mapLookup_of_vStr {rule : PyVal → Int} {col : List PyVal} {s : String}
    (hv : PyVal.vStr s ∈ col) :
    mapLookup rule (eventUniq col) (PyVal.vStr s) = rule (PyVal.vStr s) := by
  obtain ⟨u, hu, hequ⟩ :=
    mem_eventUniq_rep hv (by intro h; cases h)
  unfold mapLookup
  cases hfind : (eventUniq col).find? (fun u => pyEq (PyVal.vStr s) u) with
  | none =>
    exfalso
    have := List.find?_eq_none.mp hfind u hu
    exact this hequ
  | some u0 =>
    have hp : pyEq (PyVal.vStr s) u0 = true := List.find?_some hfind
    rw [pyEq_vStr hp]

/-- Claim C5: the normalizer maps a 0/1-valued column (covering the
boolean True/False fixture through Python equality) elementwise to its
integer cast, a Yes/No column to 1 for Yes and 0 for No, a
1:DECEASED/0:LIVING column to 1 for the deceased status and 0 for the
living one, and a column matched by no strategy of the chain to the
all-zero (all censored) column, always returning a value and never raising.
The hypothesis excluding missing values reflects the call site, which drops
them before normalizing (publication_viz_engine.py line 310). -/
theorem claim_C5_event_normalizer (col : List PyVal) (hnone : PyVal.vNone ∉ col) :
    ((∀ v ∈ col, pyEq v (PyVal.vNum 0) = true ∨ pyEq v (PyVal.vNum 1) = true) →
      detect_and_convert_event_variable col =
        col.map (fun v => if pyEq v (PyVal.vNum 1) then 1 else 0)) ∧
    ((∀ v ∈ col, v = PyVal.vStr "Yes" ∨ v = PyVal.vStr "No") →
      detect_and_convert_event_variable col =
        col.map (fun v => if v = PyVal.vStr "Yes" then 1 else 0)) ∧
    ((∀ v ∈ col, v = PyVal.vStr "1:DECEASED" ∨ v = PyVal.vStr "0:LIVING") →
      detect_and_convert_event_variable col =
        col.map (fun v => if v = PyVal.vStr "1:DECEASED" then 1 else 0)) ∧
    (eventStrategyMatches col = false →
      detect_and_convert_event_variable col = List.replicate col.length 0) := by
  refine ⟨?_, ?_, ?_, ?_⟩
  · intro hbin
    have hguard : (eventUniq col).all
        (fun v => pyEq v (PyVal.vNum 0) || pyEq v (PyVal.vNum 1)) = true := by
      rw [List.all_eq_true]
      intro u hu
      rcases hbin u (eventUniq_subset hu) with h | h
      · simp [h]
      · simp [h]
    have hred : detect_and_convert_event_variable col = col.map pyToInt := by
      unfold detect_and_convert_event_variable
      rw [hguard]
      rfl
    rw [hred]
    apply List.map_congr_left
    intro v hv
    exact pyToInt_binary (hbin v hv)
  · intro hstr
    cases col with
    | nil => decide
    | cons x xs =>
      have hxor := hstr x (List.mem_cons_self _ _)
      have hxne : x ≠ PyVal.vNone := by
        rcases hxor with h | h <;> (rw [h]; intro hc; cases hc)
      obtain ⟨rest, hrest⟩ := eventUniq_cons_head xs hxne
      have hg1 : (eventUniq (x :: xs)).all
          (fun v => pyEq v (PyVal.vNum 0) || pyEq v (PyVal.vNum 1)) = false := by
        rw [hrest, List.all_cons]
        rcases hxor with h | h <;> rw [h] <;> simp [pyEq]
      have hg2 : (eventUniq (x :: xs)).all
          (fun v => pyEq v (PyVal.vBool true) || pyEq v (PyVal.vBool false)) = false := by
        rw [hrest, List.all_cons]
        rcases hxor with h | h <;> rw [h] <;> simp [pyEq]
      have hg3 : (eventUniq (x :: xs)).any
          (fun v => strHasChar ':' (pyStrRepr v)) = false := by
        rw [List.any_eq_false]
        intro u hu
        rcases hstr u (eventUniq_subset hu) with h | h <;> rw [h] <;> decide
      have hg4 : (eventUniq (x :: xs)).all
          (fun v => event_terms.contains (strKey v) ||
            censored_terms.contains (strKey v)) = true := by
        rw [List.all_eq_true]
        intro u hu
        rcases hstr u (eventUniq_subset hu) with h | h <;> rw [h] <;> decide
      have hred : detect_and_convert_event_variable (x :: xs) =
          (x :: xs).map (mapLookup textRule (eventUniq (x :: xs))) := by
        unfold detect_and_convert_event_variable
        rw [hg1, hg2, hg3, hg4]
        rfl
      rw [hred]
      apply List.map_congr_left
      intro v hv
      rcases hstr v hv with h | h <;> subst h <;>
        rw [mapLookup_of_vStr hv] <;> decide
  · intro hstr
    cases col with
    | nil => decide
    | cons x xs =>
      have hxor := hstr x (List.mem_cons_self _ _)
      have hxne : x ≠ PyVal.vNone := by
        rcases hxor with h | h <;> (rw [h]; intro hc; cases hc)
      obtain ⟨rest, hrest⟩ := eventUniq_cons_head xs hxne
      have hg1 : (eventUniq (x :: xs)).all
          (fun v => pyEq v (PyVal.vNum 0) || pyEq v (PyVal.vNum 1)) = false := by
        rw [hrest, List.all_cons]
        rcases hxor with h | h <;> rw [h] <;> simp [pyEq]
      have hg2 : (eventUniq (x :: xs)).all
          (fun v => pyEq v (PyVal.vBool true) || pyEq v (PyVal.vBool false)) = false := by
        rw [hrest, List.all_cons]
        rcases hxor with h | h <;> rw [h] <;> simp [pyEq]
      have hg3 : (eventUniq (x :: xs)).any
          (fun v => strHasChar ':' (pyStrRepr v)) = true := by
        rw [List.any_eq_true]
        refine ⟨x, ?_, ?_⟩
        · rw [hrest]; exact List.mem_cons_self _ _
        · rcases hxor with h | h <;> rw [h] <;> decide
      have hred : detect_and_convert_event_variable (x :: xs) =
          (x :: xs).map (mapLookup colonRule (eventUniq (x :: xs))) := by
        unfold detect_and_convert_event_variable
        rw [hg1, hg2, hg3]
        rfl
      rw [hred]
      apply List.map_congr_left
      intro v hv
      rcases hstr v hv with h | h <;> subst h <;>
        rw [mapLookup_of_vStr hv] <;> decide
  · intro hno
    unfold eventStrategyMatches at hno
    simp only [Bool.or_eq_false_iff] at hno
    obtain ⟨⟨⟨⟨⟨h1, h2⟩, h3⟩, h4⟩, h5⟩, h6⟩ := hno
    unfold detect_and_convert_event_variable
    rw [h1, h2, h3, h4, h5, h6]
    rfl

/-- Claim C5 witness: the four fixture columns of the spec plus a
three-valued numeric column that no strategy matches. -/
theorem claim_C5_witness :
    detect_and_convert_event_variable [PyVal.vNum 0, PyVal.vNum 1, PyVal.vNum 0] =
      [0, 1, 0] ∧
    detect_and_convert_event_variable [PyVal.vBool true, PyVal.vBool false] = [1, 0] ∧
    detect_and_convert_event_variable [PyVal.vStr "Yes", PyVal.vStr "No",
      PyVal.vStr "Yes"] = [1, 0, 1] ∧
    detect_and_convert_event_variable [PyVal.vStr "1:DECEASED", PyVal.vStr "0:LIVING"] =
      [1, 0] ∧
    detect_and_convert_event_variable [PyVal.vNum 2, PyVal.vNum 3, PyVal.vNum 4] =
      [0, 0, 0] :=
  ⟨((claim_C5_event_normalizer [PyVal.vNum 0, PyVal.vNum 1, PyVal.vNum 0]
      (by decide)).1 (by decide)).trans (by decide),
   ((claim_C5_event_normalizer [PyVal.vBool true, PyVal.vBool false]
      (by decide)).1 (by decide)).trans (by decide),
   ((claim_C5_event_normalizer [PyVal.vStr "Yes", PyVal.vStr "No", PyVal.vStr "Yes"]
      (by decide)).2.1 (by decide)).trans (by decide),
   ((claim_C5_event_normalizer [PyVal.vStr "1:DECEASED", PyVal.vStr "0:LIVING"]
      (by decide)).2.2.1 (by decide)).trans (by decide),
   ((claim_C5_event_normalizer [PyVal.vNum 2, PyVal.vNum 3, PyVal.vNum 4]
      (by decide)).2.2.2 (by decide)).trans (by decide)⟩

end SciFig
